import Mathlib

/-!
Verification of the connection-lifecycle and line-protocol behaviour of
`src/python/src/ipv6_tester.py` (class IPv6Tester).

The program is shallowly embedded as pure Lean functions:

* Wall-clock readings (datetime.datetime.now()) become an explicit clock
  `Nat → PyDateTime`, indexed by how many timestamps the loop has taken so far.
* Each socket readline is modelled by a `ReadResult`: `data s` is the decoded
  byte string returned by `reader.readline()` (the empty string is Python's
  `b''`, i.e. end of stream), and `exn m` is an exception raised while reading
  (I/O error, reset, or a decode failure).  Writes are modelled as succeeding;
  the claims under check only concern read-side failures.
* The observable behaviour of a loop is its trace: a list of `Ev` events, one
  per logger call, socket write, sleep, or close, in program order.
* The listener's concurrent sessions are modelled as the list of the
  per-connection traces (one trace per accepted client); the claims checked
  here only inspect individual sessions and how many sessions are serviced,
  never cross-session interleavings.
-/

namespace IPv6Tester

/-- Constant from the source: `MAX_CLIENTS = 10`. -/
def MAX_CLIENTS : Nat := 10

/-- Constant from the source: `DEFAULT_PORT = 8080`. -/
def DEFAULT_PORT : Int := 8080

/-- Constant from the source: `DEFAULT_IPV6_ADDRESS = "::1"`. -/
def DEFAULT_IPV6_ADDRESS : String := "::1"

/-- A wall-clock reading, as produced by `datetime.datetime.now()`. -/
structure PyDateTime where
  year : Nat
  month : Nat
  day : Nat
  hour : Nat
  minute : Nat
  second : Nat
deriving DecidableEq

/-- The field bounds every value returned by `datetime.datetime.now()`
satisfies (datetime years are 1..9999, months 1..12, and so on). -/
def dateValid (d : PyDateTime) : Prop :=
  d.year < 10000 ∧ 1 ≤ d.month ∧ d.month ≤ 12 ∧ 1 ≤ d.day ∧ d.day ≤ 31 ∧
    d.hour < 24 ∧ d.minute < 60 ∧ d.second < 60

instance (d : PyDateTime) : Decidable (dateValid d) := by
  unfold dateValid
  infer_instance

/-- The decimal digit character for `n < 10`. -/
def digitChar (n : Nat) : Char := Char.ofNat (48 + n)

/-- Two zero-padded decimal digits, as strftime prints a field below 100
(the source only ever formats in-range datetime fields). -/
def pad2 (n : Nat) : List Char := [digitChar (n / 10), digitChar (n % 10)]

/-- Four zero-padded decimal digits, as strftime prints a year below 10000. -/
def pad4 (n : Nat) : List Char :=
  [digitChar (n / 1000 % 10), digitChar (n / 100 % 10), digitChar (n / 10 % 10), digitChar (n % 10)]

/-- The source's `DATE_FORMAT = "%Y-%m-%d %H:%M:%S"` applied to a datetime:
`strftime` output for in-range fields. -/
def formatTimestamp (d : PyDateTime) : String :=
  String.mk (pad4 d.year ++ ('-' :: (pad2 d.month ++ ('-' :: (pad2 d.day ++
    (' ' :: (pad2 d.hour ++ (':' :: (pad2 d.minute ++ (':' :: pad2 d.second))))))))))

/-- Whitespace characters removed by Python's `str.strip()` (ASCII range,
the only ones arising in this protocol). -/
def pySpace (c : Char) : Bool :=
  c = ' ' || c = '\t' || c = '\n' || c = '\r' || c = '\x0b' || c = '\x0c'

/-- Python's `str.strip()`: remove leading and trailing whitespace. -/
def pyStrip (s : String) : String :=
  String.mk (((s.data.dropWhile pySpace).reverse.dropWhile pySpace).reverse)

/-- Checks an underscored digit run after its first character: Python's
`int()` accepts single underscores strictly between digits. -/
def digitsURest : List Char → Bool
  | [] => true
  | c :: rest =>
    if c = '_' then
      match rest with
      | [] => false
      | c2 :: rest2 => c2.isDigit && digitsURest rest2
    else c.isDigit && digitsURest rest

/-- A nonempty digit run, possibly with single underscores between digits. -/
def digitsU (l : List Char) : Bool :=
  match l with
  | [] => false
  | c :: rest => c.isDigit && digitsURest rest

/-- Numeric value of a digit run (underscores skipped). -/
def digitsVal (l : List Char) : Nat :=
  (l.filter (fun c => c != '_')).foldl (fun a c => 10 * a + (c.toNat - 48)) 0

/-- Python's `int(str)` in base 10: strip whitespace, optional sign, then a
digit run; returns none exactly when `int()` raises ValueError. -/
def pyInt (s : String) : Option Int :=
  match ((s.data.dropWhile pySpace).reverse.dropWhile pySpace).reverse with
  | '+' :: rest => if digitsU rest then some (Int.ofNat (digitsVal rest)) else none
  | '-' :: rest => if digitsU rest then some (-(Int.ofNat (digitsVal rest))) else none
  | l => if digitsU l then some (Int.ofNat (digitsVal l)) else none

/-- Source line 104: the response the listener writes for each received line. -/
def serverResponse (d : PyDateTime) (serverAddress : String) : String :=
  "Server received your message at " ++ formatTimestamp d ++ " at address " ++ serverAddress ++ "\n"

/-- Source line 149: the greeting the connector writes each iteration. -/
def clientGreeting (d : PyDateTime) : String :=
  "Hello from IPv6 client at " ++ formatTimestamp d ++ "\n"

/-- Result of one `reader.readline()` call: `data s` is the decoded returned
byte string (empty means end of stream, Python's falsy `b''`); `exn m` is an
exception raised during the read. -/
inductive ReadResult where
  | data (s : String)
  | exn (msg : String)
deriving DecidableEq

/-- A read that returned bytes (did not raise). -/
def ReadResult.isData : ReadResult → Bool
  | .data _ => true
  | .exn _ => false

/-- A read that returned a nonempty line (neither end of stream nor error). -/
def ReadResult.isLine : ReadResult → Bool
  | .data s => !(s == "")
  | .exn _ => false

/-- One observable step of the program: a logger call, a socket write, the
one-second pacing sleep, or closing the connection. -/
inductive Ev where
  | logConnected (clientAddr : String)
  | logSocketProps (ctx : String)
  | logReceived (clientAddr : String) (msg : String)
  | logDisconnected (clientAddr : String)
  | logHandleError (clientAddr : String) (msg : String)
  | write (s : String)
  | sleep
  | close
  | logConnectedTo (addr : String) (port : Int)
  | logSent (msg : String)
  | logResponse (msg : String)
  | logClientError (msg : String)
  | logStarted (addr : String) (port : Int)
  | logMaxClients (n : Nat)
  | logServerError (msg : String)
deriving DecidableEq

/-- How the listener's per-client session loop ended: `normal` is the `break`
on end of stream, `errored` the `except` branch, `blocked` means the supplied
read schedule ran out while the loop was still waiting on a read. -/
inductive SessionExit where
  | normal
  | errored
  | blocked
deriving DecidableEq

/-- Source lines 91-112, the body of `handle_client`'s `try`/`except`: read a
line; on empty bytes log the disconnect and break; on an exception log the
handler error; otherwise log the stripped message, write the timestamped
response, sleep one second, and loop.  `k` counts timestamps taken so far. -/
def sessionLoop (clock : Nat → PyDateTime) (clientAddr serverAddr : String) :
    List ReadResult → Nat → List Ev × SessionExit
  | [], _ => ([], SessionExit.blocked)
  | ReadResult.exn m :: _, _ => ([Ev.logHandleError clientAddr m], SessionExit.errored)
  | ReadResult.data s :: rest, k =>
    if s = "" then ([Ev.logDisconnected clientAddr], SessionExit.normal)
    else
      (Ev.logReceived clientAddr (pyStrip s) ::
         Ev.write (serverResponse (clock k) serverAddr) :: Ev.sleep ::
         (sessionLoop clock clientAddr serverAddr rest (k + 1)).1,
       (sessionLoop clock clientAddr serverAddr rest (k + 1)).2)

/-- Source lines 85-115, `handle_client`: log the connection and socket
properties, run the session loop, and (in `finally`) close the writer when
the loop exits on any path. -/
def handle_client (clock : Nat → PyDateTime) (clientAddr serverAddr : String)
    (reads : List ReadResult) : List Ev :=
  Ev.logConnected clientAddr :: Ev.logSocketProps clientAddr ::
    ((sessionLoop clock clientAddr serverAddr reads 0).1 ++
      (if (sessionLoop clock clientAddr serverAddr reads 0).2 = SessionExit.blocked then []
       else [Ev.close]))

/-- How the connector's conversation loop ended: `done` after all 20
iterations, `errored m` when a read raised exception `m`, `blocked` means the
supplied read schedule ran out mid-loop. -/
inductive ConvExit where
  | done
  | errored (msg : String)
  | blocked
deriving DecidableEq

/-- Source lines 146-160, the connector's `for i in range(20)` body: write and
log a timestamped greeting, read one response line and log its stripped text
(note the source never tests the read for emptiness, so an end-of-stream empty
read is logged as an empty response and the loop continues), and sleep one
second when `i < 19`.  A raised read exception leaves the loop.  `j` is the
loop index `i`. -/
def convLoop (clock : Nat → PyDateTime) : List ReadResult → Nat → List Ev × ConvExit
  | [], j =>
    if j < 20 then
      ([Ev.write (clientGreeting (clock j)), Ev.logSent (pyStrip (clientGreeting (clock j)))],
       ConvExit.blocked)
    else ([], ConvExit.done)
  | r :: rest, j =>
    if j < 20 then
      match r with
      | ReadResult.exn m =>
          ([Ev.write (clientGreeting (clock j)), Ev.logSent (pyStrip (clientGreeting (clock j)))],
           ConvExit.errored m)
      | ReadResult.data s =>
          (Ev.write (clientGreeting (clock j)) :: Ev.logSent (pyStrip (clientGreeting (clock j))) ::
             Ev.logResponse (pyStrip s) ::
             ((if j < 19 then [Ev.sleep] else []) ++ (convLoop clock rest (j + 1)).1),
           (convLoop clock rest (j + 1)).2)
    else ([], ConvExit.done)

/-- Whether `asyncio.open_connection` succeeded or raised. -/
inductive ClientSetup where
  | connectOk
  | connectError (msg : String)
deriving DecidableEq

/-- Source lines 134-167, `run_client`: on connect failure the outer `except`
logs the error (and nothing else happens); on success run the conversation,
close the writer in `finally`, and if the loop left via an exception the outer
`except` then logs the client error. -/
def run_client (setup : ClientSetup) (clock : Nat → PyDateTime) (addr : String) (port : Int)
    (reads : List ReadResult) : List Ev :=
  match setup with
  | ClientSetup.connectError m => [Ev.logClientError m]
  | ClientSetup.connectOk =>
    Ev.logConnectedTo addr port :: Ev.logSocketProps addr ::
      ((convLoop clock reads 0).1 ++
        match (convLoop clock reads 0).2 with
        | ConvExit.done => [Ev.close]
        | ConvExit.errored m => [Ev.close, Ev.logClientError m]
        | ConvExit.blocked => [])

/-- Whether `asyncio.start_server` succeeded or raised. -/
inductive ServerSetup where
  | bindOk
  | bindError (msg : String)
deriving DecidableEq

/-- Source lines 117-132, `run_server`: on bind failure the `except` logs the
error; on success log the startup lines (the only place `MAX_CLIENTS` is
used) and serve every accepted client with `handle_client`.  Each element of
`clients` is one accepted connection: its peer address and read schedule;
sessions run concurrently and are modelled as the list of their traces,
flattened. -/
def run_server (setup : ServerSetup) (clock : Nat → PyDateTime) (addr : String) (port : Int)
    (clients : List (String × List ReadResult)) : List Ev :=
  match setup with
  | ServerSetup.bindError m => [Ev.logServerError m]
  | ServerSetup.bindOk =>
    Ev.logStarted addr port :: Ev.logMaxClients MAX_CLIENTS ::
      (clients.map (fun c => handle_client clock c.1 addr c.2)).flatten

/-- Observable outcome of one process run of `main`. -/
structure MainResult where
  usagePrinted : Bool
  exitCode : Nat
  uncaught : Bool
  ran : Option (String × String × Int)
  trace : List Ev
deriving DecidableEq

/-- Source lines 169-192, `main`, over `sys.argv` (program name included):
too few arguments prints usage and exits 1; otherwise the port argument is
parsed with `int()` BEFORE the mode is validated, so an unparsable port is an
uncaught ValueError (exit code 1, no usage text); an invalid mode then prints
usage and exits 1; a valid mode dispatches to the role, whose internal
`except` means `main`'s own handler never fires and the exit code is 0. -/
def pyMain (argv : List String) (ss : ServerSetup) (cs : ClientSetup)
    (clock : Nat → PyDateTime) (clients : List (String × List ReadResult))
    (reads : List ReadResult) : MainResult :=
  if argv.length < 2 then ⟨true, 1, false, none, []⟩
  else
    let mode := argv.getD 1 ""
    let addr := if 2 < argv.length then argv.getD 2 "" else DEFAULT_IPV6_ADDRESS
    match (if 3 < argv.length then pyInt (argv.getD 3 "") else some DEFAULT_PORT) with
    | none => ⟨false, 1, true, none, []⟩
    | some port =>
      if mode = "server" then
        ⟨false, 0, false, some (mode, addr, port), run_server ss clock addr port clients⟩
      else if mode = "client" then
        ⟨false, 0, false, some (mode, addr, port), run_client cs clock addr port reads⟩
      else ⟨true, 1, false, none, []⟩

/-- A fixed clock for concrete evaluations. -/
def constClock : Nat → PyDateTime := fun _ => ⟨2024, 5, 6, 7, 8, 9⟩

/-- Count of socket writes in a trace. -/
def isWriteEv : Ev → Bool
  | Ev.write _ => true
  | _ => false

/-- Count of pacing sleeps in a trace. -/
def isSleepEv : Ev → Bool
  | Ev.sleep => true
  | _ => false

/-- Count of connection closes in a trace. -/
def isCloseEv : Ev → Bool
  | Ev.close => true
  | _ => false

/-- Connection-accepted log events. -/
def isConnectedEv : Ev → Bool
  | Ev.logConnected _ => true
  | _ => false

/-- The startup log line that prints `MAX_CLIENTS`. -/
def isMaxClientsEv : Ev → Bool
  | Ev.logMaxClients _ => true
  | _ => false

/-- Number of socket writes in a trace. -/
def writeCount (l : List Ev) : Nat := l.countP isWriteEv

/-- Number of pacing sleeps in a trace. -/
def sleepCount (l : List Ev) : Nat := l.countP isSleepEv

/-- Number of connection closes in a trace. -/
def closeCount (l : List Ev) : Nat := l.countP isCloseEv

/-- Number of accepted-connection log events in a trace. -/
def connectedCount (l : List Ev) : Nat := l.countP isConnectedEv

/-- Number of log events mentioning `MAX_CLIENTS` in a trace. -/
def maxClientsCount (l : List Ev) : Nat := l.countP isMaxClientsEv

/-- The received-message texts the listener logs, in order. -/
def receivedLogs (l : List Ev) : List String :=
  l.filterMap (fun e =>
    match e with
    | Ev.logReceived _ m => some m
    | _ => none)

/-- The nonempty lines a read schedule delivers before the first end of
stream or read error. -/
def linesRead : List ReadResult → List String
  | [] => []
  | ReadResult.exn _ :: _ => []
  | ReadResult.data s :: rest => if s = "" then [] else s :: linesRead rest

/-- The per-line response blocks the session loop emits: for each received
line, its received-log, the timestamped response write, and the pacing
sleep. -/
def respBlocks (clock : Nat → PyDateTime) (clientAddr serverAddr : String) :
    Nat → List String → List Ev
  | _, [] => []
  | k, s :: ss =>
    Ev.logReceived clientAddr (pyStrip s) ::
      Ev.write (serverResponse (clock k) serverAddr) :: Ev.sleep ::
      respBlocks clock clientAddr serverAddr (k + 1) ss

/-- The payload strings of the data reads in a schedule. -/
def linesOf : List ReadResult → List String
  | [] => []
  | ReadResult.data s :: rest => s :: linesOf rest
  | ReadResult.exn _ :: rest => linesOf rest

/-- The claim's words in C7, for comparison with the source's `strip()`:
remove exactly a trailing newline, and nothing else. -/
def trimTrailingNewline (s : String) : String :=
  if s.data.getLast? = some '\n' then String.mk s.data.dropLast else s

/-- The wire-format mask of the spec's timestamp `YYYY-MM-DD HH:MM:SS`:
`D` marks a required decimal digit. -/
def tsMask : List Char :=
  ['D', 'D', 'D', 'D', '-', 'D', 'D', '-', 'D', 'D', ' ',
   'D', 'D', ':', 'D', 'D', ':', 'D', 'D']

/-- Character-by-character mask match (`D` is any digit, anything else is a
required literal). -/
def matchesMask : List Char → List Char → Bool
  | [], [] => true
  | m :: ms, c :: cs => (if m = 'D' then c.isDigit else c == m) && matchesMask ms cs
  | _, _ => false

/-- A string is a syntactically valid timestamp when it matches the
`YYYY-MM-DD HH:MM:SS` mask. -/
def timestampValid (s : String) : Bool := matchesMask tsMask s.data

lemma digitChar_isDigit : ∀ n, n < 10 → (digitChar n).isDigit = true := by decide

/-- Formatting an in-range datetime always yields a syntactically valid
wire-format timestamp. -/
lemma timestampValid_format (d : PyDateTime) (h : dateValid d) :
    timestampValid (formatTimestamp d) = true := by
  obtain ⟨hy, hm1, hm2, hd1, hd2, hh, hmi, hs⟩ := h
  have e1 := digitChar_isDigit (d.year / 1000 % 10) (by omega)
  have e2 := digitChar_isDigit (d.year / 100 % 10) (by omega)
  have e3 := digitChar_isDigit (d.year / 10 % 10) (by omega)
  have e4 := digitChar_isDigit (d.year % 10) (by omega)
  have e5 := digitChar_isDigit (d.month / 10) (by omega)
  have e6 := digitChar_isDigit (d.month % 10) (by omega)
  have e7 := digitChar_isDigit (d.day / 10) (by omega)
  have e8 := digitChar_isDigit (d.day % 10) (by omega)
  have e9 := digitChar_isDigit (d.hour / 10) (by omega)
  have e10 := digitChar_isDigit (d.hour % 10) (by omega)
  have e11 := digitChar_isDigit (d.minute / 10) (by omega)
  have e12 := digitChar_isDigit (d.minute % 10) (by omega)
  have e13 := digitChar_isDigit (d.second / 10) (by omega)
  have e14 := digitChar_isDigit (d.second % 10) (by omega)
  simp [timestampValid, formatTimestamp, tsMask, matchesMask, pad4, pad2,
    e1, e2, e3, e4, e5, e6, e7, e8, e9, e10, e11, e12, e13, e14]

/-- Every event the session loop emits is one of its five block or terminal
event kinds; in particular it never closes the connection itself and never
logs the startup lines. -/
lemma sessionLoop_events (clock : Nat → PyDateTime) (ca sa : String) :
    ∀ (reads : List ReadResult) (k : Nat) (e : Ev),
      e ∈ (sessionLoop clock ca sa reads k).1 →
      (∃ m, e = Ev.logReceived ca m) ∨ (∃ s, e = Ev.write s) ∨ e = Ev.sleep ∨
        e = Ev.logDisconnected ca ∨ (∃ m, e = Ev.logHandleError ca m) := by
  intro reads
  induction reads with
  | nil => intro k e he; simp [sessionLoop] at he
  | cons r rest ih =>
    intro k e he
    cases r with
    | exn m =>
      simp [sessionLoop] at he
      exact Or.inr (Or.inr (Or.inr (Or.inr ⟨m, he⟩)))
    | data s =>
      by_cases hs : s = ""
      · simp [sessionLoop, hs] at he
        exact Or.inr (Or.inr (Or.inr (Or.inl he)))
      · simp only [sessionLoop, if_neg hs, List.mem_cons] at he
        rcases he with h1 | h1 | h1 | h1
        · exact Or.inl ⟨pyStrip s, h1⟩
        · exact Or.inr (Or.inl ⟨serverResponse (clock k) sa, h1⟩)
        · exact Or.inr (Or.inr (Or.inl h1))
        · exact ih (k + 1) e h1

/-- The session loop itself never closes the connection. -/
lemma sessionLoop_closeCount (clock : Nat → PyDateTime) (ca sa : String)
    (reads : List ReadResult) (k : Nat) :
    closeCount (sessionLoop clock ca sa reads k).1 = 0 := by
  unfold closeCount
  rw [List.countP_eq_zero]
  intro e he
  rcases sessionLoop_events clock ca sa reads k e he with ⟨m, rfl⟩ | ⟨s, rfl⟩ | rfl | rfl | ⟨m, rfl⟩ <;>
    simp [isCloseEv]

/-- The per-client handler closes the connection exactly once whenever its
loop exits (on end of stream, or on error). -/
lemma handle_client_closeCount (clock : Nat → PyDateTime) (ca sa : String)
    (reads : List ReadResult)
    (hterm : (sessionLoop clock ca sa reads 0).2 ≠ SessionExit.blocked) :
    closeCount (handle_client clock ca sa reads) = 1 := by
  simp [handle_client, closeCount, List.countP_cons, List.countP_append, isCloseEv,
    if_neg hterm]
  have := sessionLoop_closeCount clock ca sa reads 0
  simpa [closeCount] using this

/-- The session loop emits exactly the received-log of the stripped text of
each line delivered before the first end of stream or error. -/
lemma sessionLoop_receivedLogs (clock : Nat → PyDateTime) (ca sa : String) :
    ∀ (reads : List ReadResult) (k : Nat),
      receivedLogs (sessionLoop clock ca sa reads k).1 = (linesRead reads).map pyStrip := by
  intro reads
  induction reads with
  | nil => intro k; simp [sessionLoop, receivedLogs, linesRead]
  | cons r rest ih =>
    intro k
    cases r with
    | exn m => simp [sessionLoop, receivedLogs, linesRead]
    | data s =>
      by_cases hs : s = ""
      · simp [sessionLoop, hs, receivedLogs, linesRead]
      · simp [sessionLoop, hs, receivedLogs, linesRead, List.filterMap_cons]
        exact ih (k + 1)

/-- Unrolling the session loop across a prefix of successfully delivered
lines followed by an end of stream: the trace is the response blocks, then
the disconnect log, and the loop exits normally. -/
lemma sessionLoop_append_eof (clock : Nat → PyDateTime) (ca sa : String)
    (rest : List ReadResult) :
    ∀ (pre : List ReadResult) (k : Nat), (∀ r ∈ pre, r.isLine = true) →
      sessionLoop clock ca sa (pre ++ ReadResult.data "" :: rest) k =
        (respBlocks clock ca sa k (linesOf pre) ++ [Ev.logDisconnected ca],
         SessionExit.normal) := by
  intro pre
  induction pre with
  | nil => intro k hp; simp [sessionLoop, respBlocks, linesOf]
  | cons r pre' ih =>
    intro k hp
    cases r with
    | exn m => simp [ReadResult.isLine] at hp
    | data s =>
      have hs : ¬s = "" := by
        have := hp (ReadResult.data s) (List.mem_cons_self _ _)
        simp [ReadResult.isLine] at this
        simpa using this
      have hp' : ∀ r ∈ pre', r.isLine = true := fun r hr => hp r (List.mem_cons_of_mem _ hr)
      simp [sessionLoop, hs, respBlocks, linesOf, ih k.succ hp']

/-- Unrolling the session loop across a prefix of successfully delivered
lines followed by a read error: the trace is the response blocks, then the
handler-error log, and the loop exits through the except branch. -/
lemma sessionLoop_append_exn (clock : Nat → PyDateTime) (ca sa : String)
    (rest : List ReadResult) (m : String) :
    ∀ (pre : List ReadResult) (k : Nat), (∀ r ∈ pre, r.isLine = true) →
      sessionLoop clock ca sa (pre ++ ReadResult.exn m :: rest) k =
        (respBlocks clock ca sa k (linesOf pre) ++ [Ev.logHandleError ca m],
         SessionExit.errored) := by
  intro pre
  induction pre with
  | nil => intro k hp; simp [sessionLoop, respBlocks, linesOf]
  | cons r pre' ih =>
    intro k hp
    cases r with
    | exn m' => simp [ReadResult.isLine] at hp
    | data s =>
      have hs : ¬s = "" := by
        have := hp (ReadResult.data s) (List.mem_cons_self _ _)
        simp [ReadResult.isLine] at this
        simpa using this
      have hp' : ∀ r ∈ pre', r.isLine = true := fun r hr => hp r (List.mem_cons_of_mem _ hr)
      simp [sessionLoop, hs, respBlocks, linesOf, ih k.succ hp']

/-- Every event the conversation loop emits is a greeting write, a sent-log,
a response-log, or a pacing sleep; in particular it never closes the
connection itself. -/
lemma convLoop_events (clock : Nat → PyDateTime) :
    ∀ (reads : List ReadResult) (j : Nat) (e : Ev),
      e ∈ (convLoop clock reads j).1 →
      (∃ s, e = Ev.write s) ∨ (∃ s, e = Ev.logSent s) ∨ (∃ s, e = Ev.logResponse s) ∨
        e = Ev.sleep := by
  intro reads
  induction reads with
  | nil =>
    intro j e he
    by_cases hj : j < 20 <;> simp [convLoop, hj] at he
    rcases he with h | h
    · exact Or.inl ⟨_, h⟩
    · exact Or.inr (Or.inl ⟨_, h⟩)
  | cons r rest ih =>
    intro j e he
    by_cases hj : j < 20
    · cases r with
      | exn m =>
        simp [convLoop, hj] at he
        rcases he with h | h
        · exact Or.inl ⟨_, h⟩
        · exact Or.inr (Or.inl ⟨_, h⟩)
      | data s =>
        simp only [convLoop, if_pos hj, List.mem_cons, List.mem_append] at he
        rcases he with h | h | h | h
        · exact Or.inl ⟨_, h⟩
        · exact Or.inr (Or.inl ⟨_, h⟩)
        · exact Or.inr (Or.inr (Or.inl ⟨_, h⟩))
        · rcases h with h | h
          · by_cases hj19 : j < 19 <;> simp [hj19] at h
            exact Or.inr (Or.inr (Or.inr h))
          · exact ih (j + 1) e h
    · simp [convLoop, hj] at he

/-- The conversation loop itself never closes the connection. -/
lemma convLoop_closeCount (clock : Nat → PyDateTime) (reads : List ReadResult) (j : Nat) :
    closeCount (convLoop clock reads j).1 = 0 := by
  unfold closeCount
  rw [List.countP_eq_zero]
  intro e he
  rcases convLoop_events clock reads j e he with ⟨s, rfl⟩ | ⟨s, rfl⟩ | ⟨s, rfl⟩ | rfl <;>
    simp [isCloseEv]

/-- While iterations remain, the conversation loop always emits at least the
greeting write. -/
lemma convLoop_ne_nil (clock : Nat → PyDateTime) (reads : List ReadResult) (j : Nat)
    (hj : j < 20) : (convLoop clock reads j).1 ≠ [] := by
  cases reads with
  | nil => simp [convLoop, hj]
  | cons r rest =>
    cases r with
    | exn m => simp [convLoop, hj]
    | data s => simp [convLoop, hj]

/-- The last event the conversation loop emits is never the pacing sleep:
there is no pause after the final iteration. -/
lemma convLoop_getLast (clock : Nat → PyDateTime) :
    ∀ (reads : List ReadResult) (j : Nat),
      (convLoop clock reads j).1.getLast? ≠ some Ev.sleep := by
  intro reads
  induction reads with
  | nil =>
    intro j
    by_cases hj : j < 20 <;> simp [convLoop, hj]
  | cons r rest ih =>
    intro j
    by_cases hj : j < 20
    · cases r with
      | exn m => simp [convLoop, hj]
      | data s =>
        by_cases hj19 : j + 1 < 20
        · have hne : (convLoop clock rest (j + 1)).1 ≠ [] := convLoop_ne_nil clock rest (j + 1) hj19
          have hshape : (convLoop clock (ReadResult.data s :: rest) j).1 =
              (Ev.write (clientGreeting (clock j)) :: Ev.logSent (pyStrip (clientGreeting (clock j))) ::
                Ev.logResponse (pyStrip s) :: (if j < 19 then [Ev.sleep] else [])) ++
                (convLoop clock rest (j + 1)).1 := by
            simp [convLoop, hj]
          rw [hshape, List.getLast?_append_of_ne_nil _ hne]
          exact ih (j + 1)
        · have hj' : j = 19 := by omega
          subst hj'
          have hrec : (convLoop clock rest 20).1 = [] := by
            cases rest with
            | nil => simp [convLoop]
            | cons r' rest' => cases r' <;> simp [convLoop]
          simp [convLoop, hrec]
    · simp [convLoop, hj]

/-- The conversation loop performs at most `20 - j` further greeting writes. -/
lemma convLoop_writeCount_le (clock : Nat → PyDateTime) :
    ∀ (reads : List ReadResult) (j : Nat),
      writeCount (convLoop clock reads j).1 ≤ 20 - j := by
  intro reads
  induction reads with
  | nil =>
    intro j
    by_cases hj : j < 20
    · simp [convLoop, hj, writeCount, List.countP_cons, isWriteEv]
      omega
    · simp [convLoop, hj, writeCount]
  | cons r rest ih =>
    intro j
    by_cases hj : j < 20
    · cases r with
      | exn m =>
        simp [convLoop, hj, writeCount, List.countP_cons, isWriteEv]
        omega
      | data s =>
        have := ih (j + 1)
        by_cases hj19 : j < 19 <;>
          simp [convLoop, hj, hj19, writeCount, List.countP_cons, List.countP_append,
            isWriteEv] <;>
        · unfold writeCount at this
          omega
    · simp [convLoop, hj, writeCount]

/-- The conversation loop performs at most `19 - j` further pacing sleeps. -/
lemma convLoop_sleepCount_le (clock : Nat → PyDateTime) :
    ∀ (reads : List ReadResult) (j : Nat),
      sleepCount (convLoop clock reads j).1 ≤ 19 - j := by
  intro reads
  induction reads with
  | nil =>
    intro j
    by_cases hj : j < 20 <;> simp [convLoop, hj, sleepCount, List.countP_cons, isSleepEv]
  | cons r rest ih =>
    intro j
    by_cases hj : j < 20
    · cases r with
      | exn m => simp [convLoop, hj, sleepCount, List.countP_cons, isSleepEv]
      | data s =>
        have := ih (j + 1)
        by_cases hj19 : j < 19 <;>
          simp [convLoop, hj, hj19, sleepCount, List.countP_cons, List.countP_append,
            isSleepEv] <;>
        · unfold sleepCount at this
          omega
    · simp [convLoop, hj, sleepCount]

/-- When the schedule supplies `20 - j` reads none of which raises, the loop
completes all remaining iterations: exactly `20 - j` greeting writes and
`19 - j` pacing sleeps. -/
lemma convLoop_counts_full (clock : Nat → PyDateTime) :
    ∀ (reads : List ReadResult) (j : Nat), 20 - j ≤ reads.length →
      (∀ r ∈ reads.take (20 - j), r.isData = true) →
      writeCount (convLoop clock reads j).1 = 20 - j ∧
        sleepCount (convLoop clock reads j).1 = 19 - j ∧
        (convLoop clock reads j).2 = ConvExit.done := by
  intro reads
  induction reads with
  | nil =>
    intro j hlen _
    have hj : ¬j < 20 := by simp at hlen; omega
    simp [convLoop, hj, writeCount, sleepCount]
    omega
  | cons r rest ih =>
    intro j hlen hok
    by_cases hj : j < 20
    · have hr : r.isData = true := by
        apply hok
        have : 0 < 20 - j := by omega
        cases h20 : 20 - j with
        | zero => omega
        | succ n => simp [h20, List.take_succ_cons]
      cases r with
      | exn m => simp [ReadResult.isData] at hr
      | data s =>
        have hlen' : 20 - (j + 1) ≤ rest.length := by simp at hlen; omega
        have hok' : ∀ r ∈ rest.take (20 - (j + 1)), r.isData = true := by
          intro r hrm
          apply hok
          have h20 : 20 - j = (20 - (j + 1)) + 1 := by omega
          rw [h20, List.take_succ_cons]
          exact List.mem_cons_of_mem _ hrm
        obtain ⟨hw, hsl, hex⟩ := ih (j + 1) hlen' hok'
        unfold writeCount at hw
        unfold sleepCount at hsl
        by_cases hj19 : j < 19 <;>
          simp [convLoop, hj, hj19, writeCount, sleepCount, List.countP_cons,
            List.countP_append, isWriteEv, isSleepEv, hw, hsl, hex] <;>
          omega
    · have hj20 : 20 - j = 0 := by omega
      simp [convLoop, hj, writeCount, sleepCount]
      omega

/-- A read that raises after a prefix of non-raising reads aborts the loop:
the exit is the except branch and exactly one greeting per completed or
started iteration was written. -/
lemma convLoop_exn (clock : Nat → PyDateTime) (rest : List ReadResult) (m : String) :
    ∀ (pre : List ReadResult) (j : Nat), (∀ r ∈ pre, r.isData = true) →
      j + pre.length < 20 →
      (convLoop clock (pre ++ ReadResult.exn m :: rest) j).2 = ConvExit.errored m ∧
        writeCount (convLoop clock (pre ++ ReadResult.exn m :: rest) j).1 = pre.length + 1 := by
  intro pre
  induction pre with
  | nil =>
    intro j _ hlen
    have hj : j < 20 := by simpa using hlen
    simp [convLoop, hj, writeCount, List.countP_cons, isWriteEv]
  | cons r pre' ih =>
    intro j hpre hlen
    have hj : j < 20 := by simp at hlen; omega
    have hr : r.isData = true := hpre r (List.mem_cons_self _ _)
    cases r with
    | exn m' => simp [ReadResult.isData] at hr
    | data s =>
      have hpre' : ∀ r ∈ pre', r.isData = true := fun r hr => hpre r (List.mem_cons_of_mem _ hr)
      have hlen' : (j + 1) + pre'.length < 20 := by simp at hlen; omega
      obtain ⟨hex, hw⟩ := ih (j + 1) hpre' hlen'
      unfold writeCount at hw
      by_cases hj19 : j < 19 <;>
        simp [convLoop, hj, hj19, writeCount, List.countP_cons, List.countP_append,
          isWriteEv, hex, hw]

/-- Each per-client handler trace records exactly one accepted connection and
never mentions the `MAX_CLIENTS` startup line. -/
lemma handle_client_connected_maxClients (clock : Nat → PyDateTime) (ca sa : String)
    (reads : List ReadResult) :
    connectedCount (handle_client clock ca sa reads) = 1 ∧
      maxClientsCount (handle_client clock ca sa reads) = 0 := by
  have hloop : ∀ e ∈ (sessionLoop clock ca sa reads 0).1,
      isConnectedEv e = false ∧ isMaxClientsEv e = false := by
    intro e he
    rcases sessionLoop_events clock ca sa reads 0 e he with
      ⟨m, rfl⟩ | ⟨s, rfl⟩ | rfl | rfl | ⟨m, rfl⟩ <;> simp [isConnectedEv, isMaxClientsEv]
  have hc : List.countP isConnectedEv (sessionLoop clock ca sa reads 0).1 = 0 := by
    rw [List.countP_eq_zero]
    intro e he
    simp [(hloop e he).1]
  have hm : List.countP isMaxClientsEv (sessionLoop clock ca sa reads 0).1 = 0 := by
    rw [List.countP_eq_zero]
    intro e he
    simp [(hloop e he).2]
  by_cases hb : (sessionLoop clock ca sa reads 0).2 = SessionExit.blocked <;>
    simp [handle_client, hb, connectedCount, maxClientsCount, List.countP_cons,
      List.countP_append, isConnectedEv, isMaxClientsEv, hc, hm]

/-- Across the flattened session traces, the accepted-connection count is the
number of clients and the `MAX_CLIENTS` line never appears. -/
lemma server_sessions_counts (clock : Nat → PyDateTime) (addr : String) :
    ∀ clients : List (String × List ReadResult),
      connectedCount ((clients.map (fun c => handle_client clock c.1 addr c.2)).flatten) =
        clients.length ∧
      maxClientsCount ((clients.map (fun c => handle_client clock c.1 addr c.2)).flatten) = 0 := by
  intro clients
  induction clients with
  | nil => simp [connectedCount, maxClientsCount]
  | cons c cs ih =>
    obtain ⟨h1, h2⟩ := handle_client_connected_maxClients clock c.1 addr c.2
    simp only [connectedCount, maxClientsCount] at h1 h2 ih ⊢
    simp [List.countP_append, h1, h2, ih.1, ih.2]
    omega

/-- C3: every connection — the listener's per-client session connection and
the connector's connection — is closed exactly once, on every exit path of
the loop that owns it (normal completion, clean peer disconnect, or error):
whenever the owning loop exits at all (any exit kind other than still being
blocked on a read), the trace contains exactly one close event. -/
theorem connection_closed_exactly_once (clock : Nat → PyDateTime) (ca sa addr : String)
    (port : Int) (sreads creads : List ReadResult)
    (hs : (sessionLoop clock ca sa sreads 0).2 ≠ SessionExit.blocked)
    (hc : (convLoop clock creads 0).2 ≠ ConvExit.blocked) :
    closeCount (handle_client clock ca sa sreads) = 1 ∧
      closeCount (run_client ClientSetup.connectOk clock addr port creads) = 1 := by
  refine ⟨handle_client_closeCount clock ca sa sreads hs, ?_⟩
  have h0 := convLoop_closeCount clock creads 0
  unfold closeCount at h0 ⊢
  cases hcv : (convLoop clock creads 0).2 with
  | done => simp [run_client, hcv, List.countP_cons, List.countP_append, isCloseEv, h0]
  | errored m => simp [run_client, hcv, List.countP_cons, List.countP_append, isCloseEv, h0]
  | blocked => exact absurd hcv hc

/-- Witness for C3 at a concrete disconnecting session and a concrete full
twenty-iteration conversation. -/
theorem connection_closed_exactly_once_witness :
    closeCount (handle_client constClock "c" "s" [ReadResult.data ""]) = 1 ∧
      closeCount (run_client ClientSetup.connectOk constClock "::1" 8080
        (List.replicate 20 (ReadResult.data "ok\n"))) = 1 :=
  connection_closed_exactly_once constClock "c" "s" "::1" 8080 [ReadResult.data ""]
    (List.replicate 20 (ReadResult.data "ok\n")) (by decide) (by decide)

/-- C4: the connector performs at most 20 write/read iterations and, when
nothing aborts it (twenty reads arrive and none raises), exactly 20 greeting
writes with exactly 19 pacing sleeps, the last emitted event not being a
sleep (no pause after the final iteration); over any schedule at all the
loop never exceeds 20 writes and 19 sleeps. -/
theorem connector_twenty_iterations (clock : Nat → PyDateTime) (reads : List ReadResult)
    (h20 : 20 ≤ reads.length) (hok : ∀ r ∈ reads.take 20, r.isData = true) :
    writeCount (convLoop clock reads 0).1 = 20 ∧
      sleepCount (convLoop clock reads 0).1 = 19 ∧
      (convLoop clock reads 0).1.getLast? ≠ some Ev.sleep ∧
      (∀ reads' : List ReadResult, writeCount (convLoop clock reads' 0).1 ≤ 20 ∧
        sleepCount (convLoop clock reads' 0).1 ≤ 19) := by
  obtain ⟨hw, hsl, _⟩ := convLoop_counts_full clock reads 0 (by simpa using h20) (by simpa using hok)
  refine ⟨by simpa using hw, by simpa using hsl, convLoop_getLast clock reads 0, ?_⟩
  intro reads'
  exact ⟨by simpa using convLoop_writeCount_le clock reads' 0,
    by simpa using convLoop_sleepCount_le clock reads' 0⟩

/-- Witness for C4 on a concrete schedule of twenty delivered lines. -/
theorem connector_twenty_iterations_witness :
    writeCount (convLoop constClock (List.replicate 20 (ReadResult.data "x\n")) 0).1 = 20 ∧
      sleepCount (convLoop constClock (List.replicate 20 (ReadResult.data "x\n")) 0).1 = 19 :=
  ⟨(connector_twenty_iterations constClock (List.replicate 20 (ReadResult.data "x\n"))
      (by decide) (by decide)).1,
   (connector_twenty_iterations constClock (List.replicate 20 (ReadResult.data "x\n"))
      (by decide) (by decide)).2.1⟩

/-- C5: in the listener's session loop, after a read failure or a clean peer
disconnect, no response is ever written on that connection; a clean
disconnect is logged as a disconnect event and the session exits its loop
normally.  The whole handler trace is the per-line response blocks followed
by exactly the stop log and the close: nothing, in particular no write,
follows the disconnect or error log except the guaranteed close. -/
theorem session_no_write_after_stop (clock : Nat → PyDateTime) (ca sa : String)
    (pre rest : List ReadResult) (m : String) (hpre : ∀ r ∈ pre, r.isLine = true) :
    handle_client clock ca sa (pre ++ ReadResult.data "" :: rest) =
      Ev.logConnected ca :: Ev.logSocketProps ca ::
        (respBlocks clock ca sa 0 (linesOf pre) ++ [Ev.logDisconnected ca, Ev.close]) ∧
      (sessionLoop clock ca sa (pre ++ ReadResult.data "" :: rest) 0).2 = SessionExit.normal ∧
      handle_client clock ca sa (pre ++ ReadResult.exn m :: rest) =
        Ev.logConnected ca :: Ev.logSocketProps ca ::
          (respBlocks clock ca sa 0 (linesOf pre) ++ [Ev.logHandleError ca m, Ev.close]) := by
  have he := sessionLoop_append_eof clock ca sa rest pre 0 hpre
  have hx := sessionLoop_append_exn clock ca sa rest m pre 0 hpre
  refine ⟨?_, by simp [he], ?_⟩
  · simp [handle_client, he]
  · simp [handle_client, hx]

/-- Witness for C5 at a concrete one-line session. -/
theorem session_no_write_after_stop_witness :
    handle_client constClock "c" "s" ([ReadResult.data "a\n"] ++ ReadResult.data "" :: []) =
      Ev.logConnected "c" :: Ev.logSocketProps "c" ::
        (respBlocks constClock "c" "s" 0 (linesOf [ReadResult.data "a\n"]) ++
          [Ev.logDisconnected "c", Ev.close]) :=
  (session_no_write_after_stop constClock "c" "s" [ReadResult.data "a\n"] [] "boom"
    (by decide)).1

/-- C7 (amended): for every received line the logged message equals the
decoded line with leading AND trailing whitespace removed (Python
`str.strip()`), not merely its trailing newline: the received-message logs
of any handler run are exactly the strip of each delivered line. -/
theorem session_logs_stripped_line (clock : Nat → PyDateTime) (ca sa : String)
    (reads : List ReadResult) :
    receivedLogs (handle_client clock ca sa reads) = (linesRead reads).map pyStrip := by
  have h := sessionLoop_receivedLogs clock ca sa reads 0
  by_cases hb : (sessionLoop clock ca sa reads 0).2 = SessionExit.blocked <;>
    simp [handle_client, hb, receivedLogs, List.filterMap_append, List.filterMap_cons] <;>
    simpa [receivedLogs] using h

/-- C7 counterexample: the claim as stated fails — for the received line
with leading whitespace, the logged message is the fully stripped text, not
the line with only its trailing newline removed. -/
theorem session_strip_not_only_newline_cex :
    receivedLogs (handle_client constClock "c" "s" [ReadResult.data " hi\n"]) = ["hi"] ∧
      trimTrailingNewline " hi\n" = " hi" ∧ ("hi" : String) ≠ " hi" := by decide

/-- C9: `MAX_CLIENTS` (equal to 10) is only printed once in the startup log
and is never enforced: for any number of concurrently accepted clients, all
of them are serviced (one accepted-connection log each) and no session trace
mentions the constant. -/
theorem max_clients_only_logged_never_enforced (clock : Nat → PyDateTime) (addr : String)
    (port : Int) (clients : List (String × List ReadResult)) :
    MAX_CLIENTS = 10 ∧
      maxClientsCount (run_server ServerSetup.bindOk clock addr port clients) = 1 ∧
      connectedCount (run_server ServerSetup.bindOk clock addr port clients) = clients.length := by
  obtain ⟨h1, h2⟩ := server_sessions_counts clock addr clients
  simp only [connectedCount, maxClientsCount] at h1 h2 ⊢
  refine ⟨rfl, ?_, ?_⟩ <;>
    simp [run_server, List.countP_cons, isConnectedEv, isMaxClientsEv, h1, h2]

/-- C2 counterexample: the claim as stated fails — when the first read is a
clean stream closure (readline returns empty bytes), the connector does NOT
abort: it logs an ordinary empty server response and writes a further
greeting on the next iteration (two writes in total here, where the claim
allows only the one preceding the closure). -/
theorem connector_eof_continues_cex :
    ReadResult.isLine (ReadResult.data "") = false ∧
      writeCount (run_client ClientSetup.connectOk constClock "::1" 8080
        [ReadResult.data "", ReadResult.exn "reset"]) = 2 ∧
      Ev.logResponse "" ∈ run_client ClientSetup.connectOk constClock "::1" 8080
        [ReadResult.data "", ReadResult.exn "reset"] := by decide

/-- C2 (amended): only a read that RAISES (an I/O error) makes the connector
log the error and abort the remaining iterations: after an exception on
iteration `pre.length`, exactly one greeting per begun iteration was
written, the connection is closed once, and the trace ends with the client
error log — no further greeting is ever sent.  A clean stream closure is
not detected: it is logged as an empty response and the loop continues. -/
theorem connector_read_error_aborts (clock : Nat → PyDateTime) (addr : String) (port : Int)
    (pre rest : List ReadResult) (m : String)
    (hpre : ∀ r ∈ pre, r.isData = true) (hlen : pre.length < 20) :
    writeCount (run_client ClientSetup.connectOk clock addr port
        (pre ++ ReadResult.exn m :: rest)) = pre.length + 1 ∧
      (run_client ClientSetup.connectOk clock addr port
        (pre ++ ReadResult.exn m :: rest)).getLast? = some (Ev.logClientError m) ∧
      closeCount (run_client ClientSetup.connectOk clock addr port
        (pre ++ ReadResult.exn m :: rest)) = 1 := by
  obtain ⟨hex, hw⟩ := convLoop_exn clock rest m pre 0 hpre (by simpa using hlen)
  have hclose := convLoop_closeCount clock (pre ++ ReadResult.exn m :: rest) 0
  refine ⟨?_, ?_, ?_⟩
  · unfold writeCount at hw ⊢
    simp [run_client, hex, List.countP_cons, List.countP_append, isWriteEv, hw]
  · have hshape : run_client ClientSetup.connectOk clock addr port
        (pre ++ ReadResult.exn m :: rest) =
        (Ev.logConnectedTo addr port :: Ev.logSocketProps addr ::
          (convLoop clock (pre ++ ReadResult.exn m :: rest) 0).1) ++
          [Ev.close, Ev.logClientError m] := by
      simp [run_client, hex]
    rw [hshape, List.getLast?_append_of_ne_nil _ (by simp)]
    rfl
  · unfold closeCount at hclose ⊢
    simp [run_client, hex, List.countP_cons, List.countP_append, isCloseEv, hclose]

/-- Witness for C2's amended claim at a concrete schedule: one clean-closure
read then a raising read — two greetings written in total. -/
theorem connector_read_error_aborts_witness :
    (∀ r ∈ [ReadResult.data ""], r.isData = true) ∧
      ([ReadResult.data ""] : List ReadResult).length < 20 ∧
      writeCount (run_client ClientSetup.connectOk constClock "::1" 8080
        ([ReadResult.data ""] ++ ReadResult.exn "reset" :: [])) =
        ([ReadResult.data ""] : List ReadResult).length + 1 :=
  ⟨by decide, by decide,
    (connector_read_error_aborts constClock "::1" 8080 [ReadResult.data ""] [] "reset"
      (by decide) (by decide)).1⟩

/-- C6: for every text line `L` received by the listener (no newline inside
`L`), the response written is the single line
`Server received your message at <timestamp> at address <server_address>`,
containing a syntactically valid `YYYY-MM-DD HH:MM:SS` timestamp and the
configured server address — it does not depend on `L` at all. -/
theorem listener_response_format (clock : Nat → PyDateTime) (ca sa L : String)
    (rest : List ReadResult) (hd : dateValid (clock 0)) (_hL : '\n' ∉ L.data) :
    (sessionLoop clock ca sa (ReadResult.data (L ++ "\n") :: rest) 0).1 =
      Ev.logReceived ca (pyStrip (L ++ "\n")) ::
        Ev.write (serverResponse (clock 0) sa) :: Ev.sleep ::
        (sessionLoop clock ca sa rest 1).1 ∧
      serverResponse (clock 0) sa =
        "Server received your message at " ++ formatTimestamp (clock 0) ++
          " at address " ++ sa ++ "\n" ∧
      timestampValid (formatTimestamp (clock 0)) = true := by
  have hne : ¬(L ++ "\n") = "" := by
    intro h
    have := congrArg String.length h
    simp [String.length_append] at this
    exact absurd this.2 (by decide)
  exact ⟨by simp [sessionLoop, hne], rfl, timestampValid_format _ hd⟩

/-- Witness for C6 at a concrete line and clock. -/
theorem listener_response_format_witness :
    serverResponse (constClock 0) "::1" =
      "Server received your message at " ++ formatTimestamp (constClock 0) ++
        " at address " ++ "::1" ++ "\n" ∧
      timestampValid (formatTimestamp (constClock 0)) = true :=
  ⟨(listener_response_format constClock "c" "::1" "msg" [] (by decide) (by decide)).2.1,
   (listener_response_format constClock "c" "::1" "msg" [] (by decide) (by decide)).2.2⟩

/-- C1 counterexample: the claim as stated fails — on a bind failure the
error is logged, but the process exit code is 0, not non-zero: `run_server`
catches the exception internally and `main`'s own handler never fires. -/
theorem fatal_bind_error_exit_zero_cex :
    (pyMain ["prog", "server"] (ServerSetup.bindError "bind failed") ClientSetup.connectOk
        constClock [] []).exitCode = 0 ∧
      Ev.logServerError "bind failed" ∈ (pyMain ["prog", "server"]
        (ServerSetup.bindError "bind failed") ClientSetup.connectOk constClock [] []).trace := by
  decide

/-- C1 (amended): on a fatal setup error (bind failure in the listener role,
connect failure in the connector role) the error IS reported to the
operator, but the process terminates with exit status 0: the exception is
caught and logged inside `run_server`/`run_client` and never reaches
`main`'s non-zero exit path. -/
theorem fatal_setup_error_logged_exit_zero (p a m cm : String) (ss : ServerSetup)
    (cs : ClientSetup) (clock : Nat → PyDateTime)
    (clients : List (String × List ReadResult)) (reads : List ReadResult) :
    ((pyMain [p, "server", a] (ServerSetup.bindError m) cs clock clients reads).exitCode = 0 ∧
      Ev.logServerError m ∈
        (pyMain [p, "server", a] (ServerSetup.bindError m) cs clock clients reads).trace) ∧
      ((pyMain [p, "client", a] ss (ClientSetup.connectError cm) clock clients reads).exitCode = 0 ∧
        Ev.logClientError cm ∈
          (pyMain [p, "client", a] ss (ClientSetup.connectError cm) clock clients reads).trace) := by
  constructor <;> constructor <;>
    simp [pyMain, run_server, run_client, List.getD]

/-- C8 counterexample: the claim as stated fails — with an invalid mode AND
an unparsable port argument, the usage text is never printed (the `int()`
call raises first). -/
theorem invalid_mode_bad_port_no_usage_cex :
    (pyMain ["prog", "bogus", "::1", "xyz"] ServerSetup.bindOk ClientSetup.connectOk
      constClock [] []).usagePrinted = false := by decide

/-- C8 (amended): if the mode argument is missing, the program prints usage
and exits 1; if the mode is any string other than server/client AND the
port argument (when supplied) parses as an integer, the program prints
usage and exits 1; when address and port are omitted they default to `::1`
and 8080. -/
theorem usage_and_defaults (ss : ServerSetup) (cs : ClientSetup) (clock : Nat → PyDateTime)
    (clients : List (String × List ReadResult)) (reads : List ReadResult) :
    (∀ p : String, (pyMain [p] ss cs clock clients reads).usagePrinted = true ∧
      (pyMain [p] ss cs clock clients reads).exitCode = 1) ∧
      (∀ (p mo : String) (rest : List String), mo ≠ "server" → mo ≠ "client" →
        (3 < (p :: mo :: rest).length → (pyInt ((p :: mo :: rest).getD 3 "")).isSome = true) →
        (pyMain (p :: mo :: rest) ss cs clock clients reads).usagePrinted = true ∧
          (pyMain (p :: mo :: rest) ss cs clock clients reads).exitCode = 1) ∧
      (∀ (p mo : String), mo = "server" ∨ mo = "client" →
        (pyMain [p, mo] ss cs clock clients reads).ran =
          some (mo, DEFAULT_IPV6_ADDRESS, DEFAULT_PORT)) := by
  refine ⟨fun p => by simp [pyMain], ?_, ?_⟩
  · intro p mo rest hms hmc hport
    have hlen2 : ¬((p :: mo :: rest).length < 2) := by
      simp only [List.length_cons]
      omega
    cases hp : (if 3 < (p :: mo :: rest).length
        then pyInt ((p :: mo :: rest).getD 3 "") else some DEFAULT_PORT) with
    | none =>
      exfalso
      by_cases h3 : 3 < (p :: mo :: rest).length
      · have hns := hport h3
        rw [if_pos h3] at hp
        rw [hp] at hns
        exact Bool.noConfusion hns
      · rw [if_neg h3] at hp
        exact Option.noConfusion hp
    | some port =>
      have hres : pyMain (p :: mo :: rest) ss cs clock clients reads =
          ⟨true, 1, false, none, []⟩ := by
        simp only [pyMain]
        rw [if_neg hlen2, hp]
        simp [List.getD, hms, hmc]
      simp [hres]
  · intro p mo hmo
    rcases hmo with rfl | rfl <;> simp [pyMain, List.getD]

/-- Witness for C8's amended claim at concrete argument vectors. -/
theorem usage_and_defaults_witness :
    (pyMain ["prog", "bogus", "::1", "99"] ServerSetup.bindOk ClientSetup.connectOk
        constClock [] []).usagePrinted = true ∧
      (pyMain ["prog", "server"] ServerSetup.bindOk ClientSetup.connectOk
        constClock [] []).ran = some ("server", DEFAULT_IPV6_ADDRESS, DEFAULT_PORT) :=
  ⟨((usage_and_defaults ServerSetup.bindOk ClientSetup.connectOk constClock [] []).2.1
      "prog" "bogus" ["::1", "99"] (by decide) (by decide) (by decide)).1,
   (usage_and_defaults ServerSetup.bindOk ClientSetup.connectOk constClock [] []).2.2
      "prog" "server" (Or.inl rfl)⟩

/-- C10: when a port argument is supplied that `int()` cannot parse, the
process dies from the uncaught ValueError raised BEFORE the mode is
validated: exit status is non-zero (1), the usage text is not printed, and
no role is dispatched — for every mode string, valid or invalid. -/
theorem bad_port_uncaught_before_mode_check (p mo a ps : String) (rest : List String)
    (ss : ServerSetup) (cs : ClientSetup) (clock : Nat → PyDateTime)
    (clients : List (String × List ReadResult)) (reads : List ReadResult)
    (hbad : pyInt ps = none) :
    (pyMain (p :: mo :: a :: ps :: rest) ss cs clock clients reads).uncaught = true ∧
      (pyMain (p :: mo :: a :: ps :: rest) ss cs clock clients reads).exitCode = 1 ∧
      (pyMain (p :: mo :: a :: ps :: rest) ss cs clock clients reads).usagePrinted = false ∧
      (pyMain (p :: mo :: a :: ps :: rest) ss cs clock clients reads).ran = none := by
  have hlen2 : ¬((p :: mo :: a :: ps :: rest).length < 2) := by
    simp only [List.length_cons]
    omega
  have h3 : 3 < (p :: mo :: a :: ps :: rest).length := by
    simp only [List.length_cons]
    omega
  have hgd : (p :: mo :: a :: ps :: rest).getD 3 "" = ps := by simp [List.getD]
  have hres : pyMain (p :: mo :: a :: ps :: rest) ss cs clock clients reads =
      ⟨false, 1, true, none, []⟩ := by
    simp only [pyMain]
    rw [if_neg hlen2, if_pos h3, hgd, hbad]
  simp [hres]

/-- Witness for C10: an invalid mode together with an unparsable port. -/
theorem bad_port_uncaught_before_mode_check_witness :
    pyInt "xyz" = none ∧
      (pyMain ["prog", "bogus", "::1", "xyz"] ServerSetup.bindOk ClientSetup.connectOk
          constClock [] []).uncaught = true ∧
        (pyMain ["prog", "bogus", "::1", "xyz"] ServerSetup.bindOk ClientSetup.connectOk
          constClock [] []).usagePrinted = false :=
  ⟨by decide,
   (bad_port_uncaught_before_mode_check "prog" "bogus" "::1" "xyz" [] ServerSetup.bindOk
      ClientSetup.connectOk constClock [] [] (by decide)).1,
   (bad_port_uncaught_before_mode_check "prog" "bogus" "::1" "xyz" [] ServerSetup.bindOk
      ClientSetup.connectOk constClock [] [] (by decide)).2.2.1⟩

end IPv6Tester
